import Mathlib

/-!
Shallow embedding of the DeepSeek stock chatbot core (src/api.py, src/app.py).

External effects (the HTTP market-data call, the chat-completion call) are
modelled by explicit outcome values passed to the embedded functions: each
constructor corresponds to one way the external call can end as seen by the
Python code (a raised exception, or a returned payload).  Prices are modelled
by rationals, dates by natural day codes, provider JSON rows by structures.
-/

namespace StockBot

/-- One row of the provider JSON `historical` array:
`{date, open, high, low, close, adjClose, volume}` (api.py lines 54, 63-70).
`openPrice` stands for the field named `open` (a Lean keyword). -/
structure RawRow where
  date : Nat
  openPrice : Rat
  high : Rat
  low : Rat
  close : Rat
  adjClose : Rat
  volume : Nat
deriving DecidableEq, Repr

/-- One row of the DataFrame returned by `get_stock_data`, after the column
rename `open→Open, high→High, low→Low, close→Close, adjClose→Adjusted Close,
volume→Volume` (api.py lines 62-71); values are unchanged by the rename. -/
structure PricePoint where
  date : Nat
  openPrice : Rat
  high : Rat
  low : Rat
  close : Rat
  adjClose : Rat
  volume : Nat
deriving DecidableEq, Repr

/-- The column rename of api.py lines 62-71: field names change, values do not. -/
def toPricePoint (r : RawRow) : PricePoint :=
  { date := r.date, openPrice := r.openPrice, high := r.high, low := r.low,
    close := r.close, adjClose := r.adjClose, volume := r.volume }

/-- The only exception type `get_stock_data` raises: Python `ValueError`
carrying a message string (api.py lines 56, 76, 78). -/
inductive FetchError where
  | valueError (msg : String)
deriving DecidableEq, Repr

/-- Outcome of the provider interaction inside the `try` block of
`get_stock_data` (api.py lines 43-73), as observed by the Python code:
* `transportFailure msg`: `requests.get` or `raise_for_status` raised a
  `requests.RequestException` with message `msg` (caught at api.py line 75);
* `badPayload msg`: `response.json()`, the DataFrame construction or the
  date parsing raised some non-`RequestException` exception with message
  `msg` (caught at api.py line 77);
* `payload historical`: the response parsed, with `data.get('historical', [])`
  equal to the given row list (api.py line 54). -/
inductive ProviderOutcome where
  | transportFailure (msg : String)
  | badPayload (msg : String)
  | payload (historical : List RawRow)
deriving DecidableEq, Repr

/-- `get_stock_data` (api.py lines 19-78).  On `payload historical` with an
empty list, the Python code raises `ValueError("No historical data found for
symbol: {symbol}")` at line 56 *inside* the `try`; that exception is not a
`RequestException`, so it is caught by `except Exception` at line 77 and
re-raised as `ValueError("Error processing stock data: " + str(e))`.  On a
non-empty list the DataFrame keeps the provider row order: `pd.DataFrame`,
`set_index` and `rename` do not reorder rows, and no sort is performed. -/
def get_stock_data (api_key : String) (symbol : String) (o : ProviderOutcome) :
    Except FetchError (List PricePoint) :=
  match o with
  | .transportFailure msg =>
      .error (.valueError ("Failed to fetch stock data: " ++ msg))
  | .badPayload msg =>
      .error (.valueError ("Error processing stock data: " ++ msg))
  | .payload historical =>
      if historical.isEmpty then
        .error (.valueError
          ("Error processing stock data: No historical data found for symbol: "
            ++ symbol))
      else
        .ok (historical.map toPricePoint)

/-- Dates of a series are strictly increasing (hence unique). -/
def datesStrictMono (ts : List PricePoint) : Prop :=
  List.Pairwise (fun a b => a.date < b.date) ts

instance (ts : List PricePoint) : Decidable (datesStrictMono ts) := by
  unfold datesStrictMono; infer_instance

/-- The metrics dictionary built by `get_stock_metrics` (app.py lines 44-49). -/
structure Metrics where
  current_price : Rat
  open_price : Rat
  high_price : Rat
  low_price : Rat
deriving DecidableEq, Repr

/-- `get_stock_metrics` (app.py lines 39-49): `{}` on an empty DataFrame,
otherwise `Close`/`Open` of the last row (`iloc[-1]`) and the column-wise
`High` max and `Low` min. -/
def get_stock_metrics (df : List PricePoint) : Option Metrics :=
  match df with
  | [] => none
  | p :: ps =>
      some
        { current_price := ((p :: ps).getLast (List.cons_ne_nil p ps)).close
          open_price := ((p :: ps).getLast (List.cons_ne_nil p ps)).openPrice
          high_price := List.foldl (fun acc q => max acc q.high) p.high ps
          low_price := List.foldl (fun acc q => min acc q.low) p.low ps }

/-- One chat message `{role, content}` (api.py line 100, app.py line 180). -/
structure Message where
  role : String
  content : String
deriving DecidableEq, Repr

/-- The fixed system instruction `SYSTEM_PROMPT` (api.py lines 13-14). -/
def SYSTEM_PROMPT : String :=
  "You are a stock market analyst. Your role is to use this data \nto answer questions about the stock"

/-- The fallback string returned by `deepseek_chat` on any caught exception
(api.py line 125). -/
def FALLBACK : String := "Cannot connect to the API. Please try again later."

/-- Outcome of the model-provider interaction inside the `try` block of
`deepseek_chat` (api.py lines 92-118):
* `exn msg`: the client construction or `chat.completions.create` raised;
* `success choices`: the call returned a response whose `choices` list holds
  the given message contents (possibly empty). -/
inductive ChatOutcome where
  | exn (msg : String)
  | success (choices : List String)
deriving DecidableEq, Repr

/-- The Python exception value live inside `deepseek_chat`'s `try` block. -/
inductive ChatExn where
  | providerExn (msg : String)
  | valueError (msg : String)
deriving DecidableEq, Repr

/-- The `try` block body of `deepseek_chat` (api.py lines 92-118): prepends the
system turn, makes the call; if the response has no `choices` it raises
`ValueError("Invalid response from API")` (line 115), else returns
`response.choices[0].message.content` (line 118). -/
def deepseek_chat_body (messages : List Message) (o : ChatOutcome) :
    Except ChatExn String :=
  let _full_messages := { role := "system", content := SYSTEM_PROMPT } :: messages
  match o with
  | .exn msg => .error (.providerExn msg)
  | .success choices =>
      match choices with
      | [] => .error (.valueError "Invalid response from API")
      | c :: _ => .ok c

/-- `deepseek_chat` (api.py lines 81-125): the whole `try` body under
`except Exception`, which logs and returns the fallback string (line 125). -/
def deepseek_chat (api_key : String) (messages : List Message) (o : ChatOutcome) :
    String :=
  match deepseek_chat_body messages o with
  | .ok text => text
  | .error _ => FALLBACK

/-- The Streamlit session state of app.py (`init_session_state`, lines 25-36):
`messages`, `current_symbol`, `stock_data`, `pending_prompt`. -/
structure SessionState where
  messages : List Message
  current_symbol : String
  stock_data : List PricePoint
  pending_prompt : Option String
deriving DecidableEq, Repr

/-- Fresh session defaults (app.py lines 27-32, `DEFAULT_SYMBOL = "AAPL"`). -/
def init_session_state : SessionState :=
  { messages := [], current_symbol := "AAPL", stock_data := [], pending_prompt := none }

/-- The symbol-change branch of `handle_stock_selection` (app.py lines 137-147):
when the selected symbol differs from `current_symbol`, the code assigns the
new symbol, empties `messages`, then tries the fetch; on success `stock_data`
is replaced, on any exception `st.error` is shown and `stock_data` keeps its
previous value.  With no change the state is untouched. -/
def handle_stock_selection (stock_api_key : String) (s : SessionState)
    (new_symbol : String) (o : ProviderOutcome) : SessionState :=
  if new_symbol ≠ s.current_symbol then
    let s1 := { s with current_symbol := new_symbol, messages := [] }
    match get_stock_data stock_api_key new_symbol o with
    | .ok df => { s1 with stock_data := df }
    | .error _ => s1
  else
    s

/-- Serialization of one DataFrame row, modelling one line of pandas
`DataFrame.to_string` (a deterministic rendering of the row's index and
column values, app.py line 179). -/
def rowToString (p : PricePoint) : String :=
  toString p.date ++ "  " ++ toString p.openPrice ++ "  " ++ toString p.high
    ++ "  " ++ toString p.low ++ "  " ++ toString p.close ++ "  "
    ++ toString p.adjClose ++ "  " ++ toString p.volume

/-- `df.to_string()` on the sub-DataFrame handed to it: a deterministic
function of exactly the rows it is given. -/
def df_to_string (rows : List PricePoint) : String :=
  String.intercalate "\n" (rows.map rowToString)

/-- The content of the single user message built by `generate_chat_response`
(app.py lines 178-183): the context line over `stock_data.head(5)` followed by
the literal question. -/
def user_content (stock_name : String) (stock_data : List PricePoint)
    (prompt : String) : String :=
  "Stock data for " ++ stock_name ++ ": " ++ df_to_string (stock_data.take 5)
    ++ "\n\nQuestion: " ++ prompt

/-- The `messages` list `generate_chat_response` hands to `deepseek_chat`
(app.py lines 180-183): a one-element list holding the context-augmented user
turn; `st.session_state.messages` is not consulted. -/
def generate_chat_response_messages (s : SessionState) (prompt : String) :
    List Message :=
  [{ role := "user", content := user_content s.current_symbol s.stock_data prompt }]

/-- `generate_chat_response` (app.py lines 176-188). -/
def generate_chat_response (deepseek_api_key : String) (s : SessionState)
    (prompt : String) (o : ChatOutcome) : String :=
  deepseek_chat deepseek_api_key (generate_chat_response_messages s prompt) o

/-- `process_prompt` (app.py lines 150-173): appends the user turn, generates
the response (never raises, so the `except` at line 168 is dead), appends the
assistant turn. -/
def process_prompt (deepseek_api_key : String) (s : SessionState)
    (prompt : String) (o : ChatOutcome) : SessionState :=
  let s1 := { s with messages := s.messages ++ [{ role := "user", content := prompt }] }
  let response := generate_chat_response deepseek_api_key s1 prompt o
  { s1 with messages := s1.messages ++ [{ role := "assistant", content := response }] }

/-- A concrete provider row with the earlier date. -/
def rowA : RawRow :=
  { date := 1, openPrice := 8, high := 9, low := 7, close := 9, adjClose := 9,
    volume := 50 }

/-- A concrete provider row with the later date. -/
def rowB : RawRow :=
  { date := 2, openPrice := 10, high := 12, low := 9, close := 11, adjClose := 11,
    volume := 100 }

/-- A session on "AAPL" with one cached price point and no history. -/
def exStateAAPL : SessionState :=
  { messages := [], current_symbol := "AAPL", stock_data := [toPricePoint rowA],
    pending_prompt := none }

/-- A session on "AAPL" with one prior conversation turn in its history. -/
def exStateHist : SessionState :=
  { messages := [{ role := "user", content := "earlier question" }],
    current_symbol := "AAPL", stock_data := [], pending_prompt := none }

/-- A price point whose every price field is `v`, dated `d`. -/
def mkPoint (d : Nat) (v : Rat) : PricePoint :=
  { date := d, openPrice := v, high := v, low := v, close := v, adjClose := v,
    volume := 1 }

/-- Six rows; agrees with `series2` on the first five rows only. -/
def series1 : List PricePoint :=
  [mkPoint 1 1, mkPoint 2 2, mkPoint 3 3, mkPoint 4 4, mkPoint 5 5, mkPoint 6 6]

/-- Six rows; agrees with `series1` on the first five rows only. -/
def series2 : List PricePoint :=
  [mkPoint 1 1, mkPoint 2 2, mkPoint 3 3, mkPoint 4 4, mkPoint 5 5, mkPoint 6 60]

/-- First point of `metricSeries`. -/
def mPoint1 : PricePoint :=
  { date := 1, openPrice := 10, high := 20, low := 5, close := 12, adjClose := 12,
    volume := 10 }

/-- Second point of `metricSeries`: holds the period high and the period low. -/
def mPoint2 : PricePoint :=
  { date := 2, openPrice := 11, high := 30, low := 2, close := 13, adjClose := 13,
    volume := 10 }

/-- Last point of `metricSeries`: neither the period high nor the period low. -/
def mPoint3 : PricePoint :=
  { date := 3, openPrice := 14, high := 25, low := 4, close := 15, adjClose := 15,
    volume := 10 }

/-- A three-point series whose last point is neither the period high nor the
period low: highs are 20, 30, 25 and lows are 5, 2, 4. -/
def metricSeries : List PricePoint := [mPoint1, mPoint2, mPoint3]

theorem le_foldl_max {α : Type} [LinearOrder α] (l : List α) (a : α) :
    a ≤ l.foldl max a := by
  induction l generalizing a with
  | nil => exact le_refl a
  | cons b l ih => exact le_trans (le_max_left a b) (ih (max a b))

theorem mem_le_foldl_max {α : Type} [LinearOrder α] (l : List α) (a x : α)
    (hx : x ∈ l) : x ≤ l.foldl max a := by
  induction l generalizing a with
  | nil => cases hx
  | cons b l ih =>
    rcases List.mem_cons.mp hx with h | h
    · subst h
      exact le_trans (le_max_right a x) (le_foldl_max l (max a x))
    · exact ih (max a b) h

theorem foldl_max_mem {α : Type} [LinearOrder α] (l : List α) (a : α) :
    l.foldl max a = a ∨ l.foldl max a ∈ l := by
  induction l generalizing a with
  | nil => exact Or.inl rfl
  | cons b l ih =>
    rcases ih (max a b) with h | h
    · rcases max_choice a b with hab | hab
      · exact Or.inl (by rw [List.foldl_cons, h, hab])
      · exact Or.inr (by rw [List.foldl_cons, h, hab]; exact List.mem_cons_self b l)
    · exact Or.inr (List.mem_cons_of_mem b h)

theorem foldl_min_le {α : Type} [LinearOrder α] (l : List α) (a : α) :
    l.foldl min a ≤ a := by
  induction l generalizing a with
  | nil => exact le_refl a
  | cons b l ih => exact le_trans (ih (min a b)) (min_le_left a b)

theorem foldl_min_le_mem {α : Type} [LinearOrder α] (l : List α) (a x : α)
    (hx : x ∈ l) : l.foldl min a ≤ x := by
  induction l generalizing a with
  | nil => cases hx
  | cons b l ih =>
    rcases List.mem_cons.mp hx with h | h
    · subst h
      exact le_trans (foldl_min_le l (min a x)) (min_le_right a x)
    · exact ih (min a b) h

theorem foldl_min_mem {α : Type} [LinearOrder α] (l : List α) (a : α) :
    l.foldl min a = a ∨ l.foldl min a ∈ l := by
  induction l generalizing a with
  | nil => exact Or.inl rfl
  | cons b l ih =>
    rcases ih (min a b) with h | h
    · rcases min_choice a b with hab | hab
      · exact Or.inl (by rw [List.foldl_cons, h, hab])
      · exact Or.inr (by rw [List.foldl_cons, h, hab]; exact List.mem_cons_self b l)
    · exact Or.inr (List.mem_cons_of_mem b h)

/-- Claim C1 counterexample: a provider payload delivered in descending date
order (dates 2 then 1) is non-empty, yet `get_stock_data` returns its rows
unchanged, so the resulting series is not sorted ascending by date. -/
theorem claim_C1_counterexample :
    get_stock_data "key" "AAPL" (.payload [rowB, rowA]) =
      .ok [toPricePoint rowB, toPricePoint rowA] ∧
    ¬ datesStrictMono [toPricePoint rowB, toPricePoint rowA] :=
  ⟨rfl, by decide⟩

/-- Claim C1 (amended): for a non-empty provider payload, `get_stock_data`
returns the provider's rows in the provider's own order, only renaming
fields; it performs no sort, so the dates are strictly increasing exactly
when the provider delivered them strictly increasing. -/
theorem claim_C1_provider_order (api_key symbol : String) (rows : List RawRow)
    (h : rows ≠ []) :
    get_stock_data api_key symbol (.payload rows) = .ok (rows.map toPricePoint) ∧
    (datesStrictMono (rows.map toPricePoint) ↔
      List.Pairwise (fun a b => a < b) (rows.map RawRow.date)) := by
  constructor
  · cases rows with
    | nil => exact absurd rfl h
    | cons r rs => rfl
  · simp [datesStrictMono, List.pairwise_map, toPricePoint]

/-- Witness for C1 at a concrete two-row ascending payload. -/
theorem claim_C1_provider_order_witness :
    ([rowA, rowB] : List RawRow) ≠ [] ∧
    (get_stock_data "key" "MSFT" (.payload [rowA, rowB]) =
        .ok ([rowA, rowB].map toPricePoint) ∧
      (datesStrictMono ([rowA, rowB].map toPricePoint) ↔
        List.Pairwise (fun a b => a < b) ([rowA, rowB].map RawRow.date))) :=
  ⟨by decide, claim_C1_provider_order "key" "MSFT" [rowA, rowB] (by decide)⟩

/-- Claim C2 counterexample: switching a session holding AAPL data to "MSFT"
while the fetch fails leaves the old AAPL series in `stock_data` — the cache
is not emptied, so it is inconsistent with the new `current_symbol`. -/
theorem claim_C2_counterexample :
    handle_stock_selection "key" exStateAAPL "MSFT" (.transportFailure "boom") =
      { messages := [], current_symbol := "MSFT",
        stock_data := [toPricePoint rowA], pending_prompt := none } ∧
    (handle_stock_selection "key" exStateAAPL "MSFT"
        (.transportFailure "boom")).stock_data ≠ [] :=
  ⟨rfl, by decide⟩

/-- Claim C2 (amended): on a symbol change whose fetch fails,
`handle_stock_selection` clears the history and installs the new symbol, but
`stock_data` keeps the previous symbol's cached series unchanged. -/
theorem claim_C2_stale_cache (stock_api_key : String) (s : SessionState)
    (new_symbol : String) (o : ProviderOutcome) (e : FetchError)
    (hchange : new_symbol ≠ s.current_symbol)
    (herr : get_stock_data stock_api_key new_symbol o = .error e) :
    handle_stock_selection stock_api_key s new_symbol o =
      { messages := [], current_symbol := new_symbol,
        stock_data := s.stock_data, pending_prompt := s.pending_prompt } := by
  unfold handle_stock_selection
  rw [if_pos hchange, herr]

/-- Witness for C2 at a concrete failing symbol change. -/
theorem claim_C2_stale_cache_witness :
    ("MSFT" ≠ exStateAAPL.current_symbol ∧
      get_stock_data "key" "MSFT" (.transportFailure "boom") =
        .error (.valueError ("Failed to fetch stock data: " ++ "boom"))) ∧
    handle_stock_selection "key" exStateAAPL "MSFT" (.transportFailure "boom") =
      { messages := [], current_symbol := "MSFT",
        stock_data := exStateAAPL.stock_data,
        pending_prompt := exStateAAPL.pending_prompt } :=
  ⟨⟨by decide, rfl⟩,
    claim_C2_stale_cache "key" exStateAAPL "MSFT" (.transportFailure "boom")
      (.valueError ("Failed to fetch stock data: " ++ "boom")) (by decide) rfl⟩

/-- Claim C3: every symbol change (new symbol differs from the current one)
empties the conversation history in that same transition, whatever the fetch
outcome. -/
theorem claim_C3_history_cleared (stock_api_key : String) (s : SessionState)
    (new_symbol : String) (o : ProviderOutcome)
    (h : new_symbol ≠ s.current_symbol) :
    (handle_stock_selection stock_api_key s new_symbol o).messages = [] := by
  unfold handle_stock_selection
  rw [if_pos h]
  cases get_stock_data stock_api_key new_symbol o with
  | ok df => rfl
  | error e => rfl

/-- Witness for C3 at a concrete symbol change with a successful fetch. -/
theorem claim_C3_history_cleared_witness :
    "MSFT" ≠ exStateAAPL.current_symbol ∧
    (handle_stock_selection "key" exStateAAPL "MSFT" (.payload [rowA])).messages = [] :=
  ⟨by decide,
    claim_C3_history_cleared "key" exStateAAPL "MSFT" (.payload [rowA]) (by decide)⟩

/-- Claim C4: whenever the underlying provider call raises, `deepseek_chat`
returns the literal fallback string; being a total `String`-valued function
of the outcome, it never propagates the exception past its boundary. -/
theorem claim_C4_chat_fallback (deepseek_api_key : String)
    (messages : List Message) (msg : String) :
    deepseek_chat deepseek_api_key messages (.exn msg) = FALLBACK := rfl

/-- Claim C5 counterexample: on a successful call whose response has no
choices, the caller of `deepseek_chat` receives the normal fallback text, not
a typed failure. -/
theorem claim_C5_counterexample :
    deepseek_chat "key" [] (.success []) = FALLBACK := rfl

/-- Claim C5 (amended): on a successful call with no completion choices, the
`try` body of `deepseek_chat` raises `ValueError("Invalid response from
API")`, but the function's own `except Exception` handler catches it, so the
caller observes the fallback string rather than a typed failure. -/
theorem claim_C5_invalid_response (deepseek_api_key : String)
    (messages : List Message) :
    deepseek_chat_body messages (.success []) =
      .error (.valueError "Invalid response from API") ∧
    deepseek_chat deepseek_api_key messages (.success []) = FALLBACK :=
  ⟨rfl, rfl⟩

/-- Claim C6 counterexample: a session with one prior turn in its history
still hands `deepseek_chat` a one-element message list, and the prior turn is
absent from it — so the handed list is not the prior history followed by the
new turn. -/
theorem claim_C6_counterexample :
    exStateHist.messages.length = 1 ∧
    (generate_chat_response_messages exStateHist "hi").length = 1 ∧
    ({ role := "user", content := "earlier question" } : Message) ∈ exStateHist.messages ∧
    ({ role := "user", content := "earlier question" } : Message) ∉
      generate_chat_response_messages exStateHist "hi" :=
  ⟨rfl, rfl, by decide, by decide⟩

/-- Claim C6 (amended): the message list handed to `deepseek_chat` is exactly
the one-element list holding the new context-augmented user turn; the prior
conversation history is not consulted, so it is not included. -/
theorem claim_C6_single_turn (s : SessionState) (prompt : String) :
    generate_chat_response_messages s prompt =
      [{ role := "user",
         content := user_content s.current_symbol s.stock_data prompt }] ∧
    ∀ ms : List Message,
      generate_chat_response_messages { s with messages := ms } prompt =
        generate_chat_response_messages s prompt :=
  ⟨rfl, fun _ => rfl⟩

/-- Claim C7: the context-augmented user content depends only on the symbol,
the first five rows of the cached series (in series order) and the question:
two series agreeing on their first five rows yield identical content. -/
theorem claim_C7_context_first5 (stock_name : String) (d1 d2 : List PricePoint)
    (prompt : String) (h : d1.take 5 = d2.take 5) :
    user_content stock_name d1 prompt = user_content stock_name d2 prompt := by
  unfold user_content
  rw [h]

/-- Witness for C7 at two concrete six-row series that differ only in their
sixth row. -/
theorem claim_C7_context_first5_witness :
    series1.take 5 = series2.take 5 ∧ series1 ≠ series2 ∧
    user_content "AAPL" series1 "q" = user_content "AAPL" series2 "q" :=
  ⟨rfl, by decide, claim_C7_context_first5 "AAPL" series1 series2 "q" rfl⟩

/-- Claim C8: on a non-empty series, `get_stock_metrics` returns a dictionary
whose `high_price` is an attained upper bound of `High` over the whole series
and whose `low_price` is an attained lower bound of `Low` over the whole
series, while `current_price` and `open_price` come from the last point. -/
theorem claim_C8_metrics (df : List PricePoint) (lst : PricePoint)
    (h : df.getLast? = some lst) :
    ∃ m, get_stock_metrics df = some m ∧
      m.current_price = lst.close ∧ m.open_price = lst.openPrice ∧
      (∀ q ∈ df, q.high ≤ m.high_price) ∧ (∃ q ∈ df, q.high = m.high_price) ∧
      (∀ q ∈ df, m.low_price ≤ q.low) ∧ (∃ q ∈ df, q.low = m.low_price) := by
  cases df with
  | nil => simp at h
  | cons p ps =>
    have hlast : (p :: ps).getLast (List.cons_ne_nil p ps) = lst := by
      rw [List.getLast?_eq_getLast _ (List.cons_ne_nil p ps)] at h
      exact Option.some.inj h
    have hfmax : List.foldl (fun acc q => max acc q.high) p.high ps =
        (ps.map PricePoint.high).foldl max p.high :=
      (List.foldl_map PricePoint.high max ps p.high).symm
    have hfmin : List.foldl (fun acc q => min acc q.low) p.low ps =
        (ps.map PricePoint.low).foldl min p.low :=
      (List.foldl_map PricePoint.low min ps p.low).symm
    refine ⟨_, rfl, ?_, ?_, ?_, ?_, ?_, ?_⟩
    · exact congrArg PricePoint.close hlast
    · exact congrArg PricePoint.openPrice hlast
    · intro q hq
      rcases List.mem_cons.mp hq with hq | hq
      · subst hq
        show q.high ≤ List.foldl (fun acc r => max acc r.high) q.high ps
        rw [show List.foldl (fun acc r => max acc r.high) q.high ps =
            (ps.map PricePoint.high).foldl max q.high from
          (List.foldl_map PricePoint.high max ps q.high).symm]
        exact le_foldl_max _ _
      · show q.high ≤ List.foldl (fun acc r => max acc r.high) p.high ps
        rw [hfmax]
        exact mem_le_foldl_max _ _ _ (List.mem_map_of_mem PricePoint.high hq)
    · rcases foldl_max_mem (ps.map PricePoint.high) p.high with heq | hmem
      · exact ⟨p, List.mem_cons_self p ps, by rw [hfmax, heq]⟩
      · rcases List.mem_map.mp hmem with ⟨q, hq, hqe⟩
        exact ⟨q, List.mem_cons_of_mem p hq, by rw [hfmax, ← hqe]⟩
    · intro q hq
      rcases List.mem_cons.mp hq with hq | hq
      · subst hq
        show List.foldl (fun acc r => min acc r.low) q.low ps ≤ q.low
        rw [show List.foldl (fun acc r => min acc r.low) q.low ps =
            (ps.map PricePoint.low).foldl min q.low from
          (List.foldl_map PricePoint.low min ps q.low).symm]
        exact foldl_min_le _ _
      · show List.foldl (fun acc r => min acc r.low) p.low ps ≤ q.low
        rw [hfmin]
        exact foldl_min_le_mem _ _ _ (List.mem_map_of_mem PricePoint.low hq)
    · rcases foldl_min_mem (ps.map PricePoint.low) p.low with heq | hmem
      · exact ⟨p, List.mem_cons_self p ps, by rw [hfmin, heq]⟩
      · rcases List.mem_map.mp hmem with ⟨q, hq, hqe⟩
        exact ⟨q, List.mem_cons_of_mem p hq, by rw [hfmin, ← hqe]⟩

/-- Witness for C8 at the three-point series whose last point is neither the
period high nor the period low. -/
theorem claim_C8_metrics_witness :
    metricSeries.getLast? = some mPoint3 ∧
    (∃ m, get_stock_metrics metricSeries = some m ∧
      m.current_price = mPoint3.close ∧ m.open_price = mPoint3.openPrice ∧
      (∀ q ∈ metricSeries, q.high ≤ m.high_price) ∧
      (∃ q ∈ metricSeries, q.high = m.high_price) ∧
      (∀ q ∈ metricSeries, m.low_price ≤ q.low) ∧
      (∃ q ∈ metricSeries, q.low = m.low_price)) :=
  ⟨rfl, claim_C8_metrics metricSeries mPoint3 rfl⟩

/-- Claim C9: an empty provider `historical` array makes `get_stock_data`
fail with the no-data error (the spec's `NoDataError` case), and no outcome
at all can make it return an empty series as a normal result. -/
theorem claim_C9_empty_rejected (api_key symbol : String) (o : ProviderOutcome)
    (ts : List PricePoint) :
    get_stock_data api_key symbol (.payload []) =
      .error (.valueError
        ("Error processing stock data: No historical data found for symbol: "
          ++ symbol)) ∧
    (get_stock_data api_key symbol o = .ok ts → 0 < ts.length) := by
  refine ⟨rfl, ?_⟩
  intro h
  match o with
  | .transportFailure msg => exact Except.noConfusion h
  | .badPayload msg => exact Except.noConfusion h
  | .payload [] => exact Except.noConfusion h
  | .payload (r :: rs) =>
      have h' : Except.ok ((r :: rs).map toPricePoint) =
          (Except.ok ts : Except FetchError (List PricePoint)) := h
      have hts : (r :: rs).map toPricePoint = ts := Except.ok.inj h'
      rw [← hts]
      simp

/-- Witness for C9: a one-row payload is accepted with a positive length. -/
theorem claim_C9_empty_rejected_witness :
    get_stock_data "key" "AAPL" (.payload [rowA]) = .ok [toPricePoint rowA] ∧
    get_stock_data "key" "AAPL" (.payload []) =
      .error (.valueError
        ("Error processing stock data: No historical data found for symbol: "
          ++ "AAPL")) ∧
    0 < ([toPricePoint rowA] : List PricePoint).length :=
  ⟨rfl,
    (claim_C9_empty_rejected "key" "AAPL" (.payload [rowA]) [toPricePoint rowA]).1,
    (claim_C9_empty_rejected "key" "AAPL" (.payload [rowA]) [toPricePoint rowA]).2 rfl⟩

/-- Claim C10: every failure of `get_stock_data` — transport/HTTP failure,
empty provider series, or any parsing/processing error — is the single
exception type `ValueError` carrying a message; the three kinds differ only
in their message text. -/
theorem claim_C10_valueError_only (api_key symbol msg : String) :
    get_stock_data api_key symbol (.transportFailure msg) =
      .error (.valueError ("Failed to fetch stock data: " ++ msg)) ∧
    get_stock_data api_key symbol (.badPayload msg) =
      .error (.valueError ("Error processing stock data: " ++ msg)) ∧
    get_stock_data api_key symbol (.payload []) =
      .error (.valueError
        ("Error processing stock data: No historical data found for symbol: "
          ++ symbol)) :=
  ⟨rfl, rfl, rfl⟩

end StockBot
